import Mathlib

/-
Verification development for the namicorn blockchain-domain resolution
library.  Shallow embedding of the TypeScript sources:

  * src/src/namicorn.ts            -- the `Namicorn` dispatcher
  * src/src/cns.ts                 -- the `Cns` backend
  * src/src/EthereumNamingService.ts -- the shared Ethereum base class
  * the Zilliqa (`Zns`) backend class
  * src/src/types.ts               -- shared types

Conventions of the embedding:
  * JavaScript values that may be `null`/`undefined`/a string are
    embedded as `Option String`; JS truthiness tests (`!x`) become
    `jsFalsy`.
  * `async` methods that may `throw` become functions into
    `Except JsError _`; `err instanceof ResolutionError` becomes a
    match on the `JsError.resolution` constructor.
  * One network round trip of the injected transport (the external
    `Contract.fetchMethod` / zilliqa `provider.send`) is a field of a
    "chain" structure: the transport is a parameter of every operation,
    exactly the dependency injection of the source.
  * keccak256 (the `eth-ens-namehash` dependency) and the zns namehash
    module are not part of src/; they are abstract parameters of the
    environments (see the `Modelled from the spec:` doc comments).
-/

deriving instance DecidableEq for Except

/-- The null-address sentinel, `'0x0000000000000000000000000000000000000000'`
(defined at the top of the Zns module and imported by cns.ts from types). -/
def NullAddress : String := "0x0000000000000000000000000000000000000000"

/-- The error codes of the shared resolution-error taxonomy
(`ResolutionErrorCode` plus the string codes used directly by
namicorn.ts: `'UnregisteredCurrency'` appears only there). -/
inductive ResolutionErrorCode where
  | UnsupportedDomain
  | UnregisteredDomain
  | UnspecifiedResolver
  | UnspecifiedCurrency
  | UnregisteredCurrency
  | RecordNotFound
  | NamingServiceDown
deriving DecidableEq

/-- A thrown JavaScript value: either a `ResolutionError` carrying a
taxonomy code, or any other error carrying its message (transport
faults, `TypeError`s, programming errors). -/
inductive JsError where
  | resolution (code : ResolutionErrorCode)
  | generic (message : String)
deriving DecidableEq

/-- `err instanceof ResolutionError`. -/
def JsError.isResolutionError : JsError → Bool
  | .resolution _ => true
  | .generic _ => false

/-- `error.message` as read by the `callMethod` catch blocks.  The
messages of `ResolutionError`s never contain the transport-failure
signatures, so they are embedded as the empty string. -/
def JsError.message : JsError → String
  | .resolution _ => ""
  | .generic m => m

/-- JS line terminators, the only characters the regex atom `.` does not
match. -/
def jsLineTerminator (c : Char) : Bool :=
  c == '\n' || c == '\r' || c == Char.ofNat 0x2028 || c == Char.ofNat 0x2029

/-- A character matched by the regex atom `.`. -/
def jsDotAtom (c : Char) : Bool := !(jsLineTerminator c)

/-- `String.prototype.toLowerCase` on the character level. -/
def jsToLower (s : String) : String := String.mk (s.toList.map Char.toLower)

/-- `String.prototype.toUpperCase` on the character level. -/
def jsToUpper (s : String) : String := String.mk (s.toList.map Char.toUpper)

/-- Substring containment on character lists (the semantics of
`message.match(/literal pattern/)` being non-null). -/
def listContainsSub (pat : List Char) : List Char → Bool
  | [] => pat.isEmpty
  | c :: rest => pat.isPrefixOf (c :: rest) || listContainsSub pat rest

/-- `message.match(/pat/) !== null` for a literal pattern `pat`. -/
def jsMessageMatch (pat s : String) : Bool := listContainsSub pat.toList s.toList

/-- The transport-failure signatures recognised by the two `callMethod`
implementations (cns.ts and EthereumNamingService.ts):
`/Invalid JSON RPC response/` and `/legacy access request rate exceeded/`. -/
def rpcDownSignature (message : String) : Bool :=
  jsMessageMatch "Invalid JSON RPC response" message ||
  jsMessageMatch "legacy access request rate exceeded" message

/-- JS falsiness of a possibly-absent string value (`!x`): `null`,
`undefined` and `''` are falsy. -/
def jsFalsy (v : Option String) : Bool :=
  match v with
  | none => true
  | some s => s == ""

/-- `!x || x === NullAddress`: the "absent or the null address" test of
cns.ts (`getResolutionMeta`) and of `isNullAddress` (types). -/
def jsFalsyOrNullAddress (v : Option String) : Bool :=
  match v with
  | none => true
  | some s => s == "" || s == NullAddress

/-- Decimal-prefix accumulator for `parseInt`. -/
def digitsPrefixNat : List Char → Nat → Nat
  | [], acc => acc
  | c :: cs, acc => if c.isDigit then digitsPrefixNat cs (acc * 10 + (c.toNat - 48)) else acc

/-- `parseInt(v) || 0` on the ttl strings of the sources.  The model
covers the decimal form the resolvers store; `parseInt`'s hex and sign
forms never reach a claim. -/
def jsParseIntOr0 (v : Option String) : Nat :=
  match v with
  | none => 0
  | some s => digitsPrefixNat s.toList 0

/-- First-match association lookup (a JS object read `obj[key]`). -/
def lookupList (l : List (String × String)) (k : String) : Option String :=
  (l.find? (fun kv => kv.1 == k)).map (fun kv => kv.2)

/-- `str.startsWith(pre)` on the character level. -/
def jsStartsWith (pre s : String) : Bool := pre.toList.isPrefixOf s.toList

/-- The test `/^.{1,}\.(tld)$/.test(domain)` shared by the backends'
`isSupportedDomain` regexes: the domain ends with `"." ++ tld`, with a
non-empty prefix of non-line-terminator characters before that suffix. -/
def jsTestDotSuffix (tld : String) (d : String) : Bool :=
  let l := d.toList
  let s := '.' :: tld.toList
  s.isSuffixOf l && decide (s.length < l.length) && (l.take (l.length - s.length)).all jsDotAtom

/-- `domain.indexOf('.') > 0`: a dot occurs, and not as the first
character. -/
def jsIndexOfDotPositive (d : String) : Bool :=
  match d.toList with
  | [] => false
  | c :: rest => c != '.' && rest.contains '.'

/-- `meta` of a `NamicornResolution` (types.ts); `owner` is nullable. -/
structure ResolutionMeta where
  owner : Option String
  type : String
  ttl : Nat
deriving DecidableEq

/-- The unified resolution result (types.ts `NamicornResolution`).
`addresses` is a JS object: an association list whose values may be
`undefined`. -/
structure NamicornResolution where
  addresses : List (String × Option String)
  meta : ResolutionMeta
deriving DecidableEq

/-- The zero node hash that seeds the namehash recursion. -/
def zeroHash : String :=
  "0x0000000000000000000000000000000000000000000000000000000000000000"

/-- `str.split('.')` on the character level. -/
def splitOnDot : List Char → List (List Char)
  | [] => [[]]
  | c :: rest =>
    match splitOnDot rest with
    | [] => []
    | cur :: parts => if c == '.' then [] :: cur :: parts else (c :: cur) :: parts

/-- The labels of a domain, `domain.split('.')`. -/
def splitLabels (s : String) : List String :=
  (splitOnDot s.toList).map String.mk

/-- Modelled from the spec: the ENS namehash algorithm used by the
external `eth-ens-namehash` dependency (and, per the spec, by the CNS
token ids): "Computed by lowercasing and hashing labels from the
rightmost label inward, seeded with a zero hash".  Node hashes are hex
strings; the keccak256 step combining a node hash with the next label is
the abstract parameter `hash2`, and every theorem about namehash holds
for an arbitrary `hash2`. -/
def namehashCore (hash2 : String → String → String) (domain : String) : String :=
  (splitLabels (jsToLower domain)).foldr (fun label node => hash2 node label) zeroHash

/-- The injected Ethereum transport: `new Contract(url, abi, address)`
followed by `contract.fetchMethod(method, params)` is one lookup
`call address method params`.  The contract address may be `null`
(cns.ts `record()` builds a contract from a possibly-null resolver). -/
structure CnsChain where
  call : Option String → String → List String → Except JsError (Option String)

/-- Environment of the Cns backend: the abstract keccak combiner of its
namehash plus the injected transport. -/
structure CnsEnv where
  hash2 : String → String → String
  chain : CnsChain

namespace Cns

/-- `RegistryMap.mainnet` of cns.ts, the registry address of the default
(mainnet) configuration modelled throughout. -/
def registryAddress : String := "0x608624cA9dacbf78B19232e15f67107Da0AeE715"

/-- cns.ts `isSupportedDomain`:
`domain.indexOf('.') > 0 && /^.{1,}\.(crypto)$/.test(domain)`. -/
def isSupportedDomain (domain : String) : Bool :=
  jsIndexOfDotPositive domain && jsTestDotSuffix "crypto" domain

/-- cns.ts `callMethod`: forwards the transport result, translating an
error whose message matches one of the two transport-failure signatures
into `ResolutionError(NamingServiceDown)`; any other error is rethrown. -/
def callMethod (raw : Except JsError (Option String)) : Except JsError (Option String) :=
  match raw with
  | .ok v => .ok v
  | .error e =>
    if rpcDownSignature e.message then .error (.resolution .NamingServiceDown)
    else .error e

/-- The token id `hash(domain)` of cns.ts, rendered as the string passed
to the contract calls. -/
def tokenIdOf (env : CnsEnv) (domain : String) : String :=
  namehashCore env.hash2 domain

/-- cns.ts `namehash`: `ensureSupportedDomain(domain)` (modelled from the
spec, the base class is not in src/: fails with `UnsupportedDomain` when
unsupported) then `hash(domain)`. -/
def namehash (env : CnsEnv) (domain : String) : Except JsError String :=
  if isSupportedDomain domain then .ok (tokenIdOf env domain)
  else .error (.resolution .UnsupportedDomain)

/-- cns.ts `owner`: `callMethod(cnsContract, 'ownerOf', [tokenId])`. -/
def owner (env : CnsEnv) (tokenId : String) : Except JsError (Option String) :=
  callMethod (env.chain.call (some registryAddress) "ownerOf" [tokenId])

/-- cns.ts `getResolver`: `callMethod(cnsContract, 'resolverOf', [tokenId])`. -/
def getResolver (env : CnsEnv) (tokenId : String) : Except JsError (Option String) :=
  callMethod (env.chain.call (some registryAddress) "resolverOf" [tokenId])

/-- cns.ts `getTtl`: note that the source body issues the call on
`this.cnsContract` (the registry) even though a resolver contract is
passed, so the model queries the registry address. -/
def getTtl (env : CnsEnv) (tokenId : String) : Except JsError (Option String) :=
  callMethod (env.chain.call (some registryAddress) "get" ["ttl", tokenId])

/-- cns.ts `getRecord` on a contract built at `contractAddress`:
`callMethod(contract, 'get', [key, tokenId])`. -/
def getRecord (env : CnsEnv) (contractAddress : Option String) (key tokenId : String) :
    Except JsError (Option String) :=
  callMethod (env.chain.call contractAddress "get" [key, tokenId])

/-- cns.ts `fetchAddress`: reads `crypto.<TICKER>.address` (ticker
uppercased) from the resolver contract. -/
def fetchAddress (env : CnsEnv) (resolver tokenId coinName : String) :
    Except JsError (Option String) :=
  getRecord env (some resolver) ("crypto." ++ jsToUpper coinName ++ ".address") tokenId

/-- cns.ts `getResolutionMeta`: namehash, owner, resolver; if the
resolver is absent/empty/null-address then `UnregisteredDomain` when the
owner is too, else `UnspecifiedResolver`; otherwise read the ttl and
yield `[tokenId, owner, parseInt(ttl) || 0, resolver]`. -/
def getResolutionMeta (env : CnsEnv) (domain : String) :
    Except JsError (String × Option String × Nat × String) :=
  match namehash env domain with
  | .error e => .error e
  | .ok tokenId =>
    match owner env tokenId with
    | .error e => .error e
    | .ok ownerv =>
      match getResolver env tokenId with
      | .error e => .error e
      | .ok resolverv =>
        if jsFalsyOrNullAddress resolverv then
          if jsFalsyOrNullAddress ownerv then .error (.resolution .UnregisteredDomain)
          else .error (.resolution .UnspecifiedResolver)
        else
          match getTtl env tokenId with
          | .error e => .error e
          | .ok ttlv => .ok (tokenId, ownerv, jsParseIntOr0 ttlv, resolverv.getD "")

/-- cns.ts `resolve`: runs `ensureSupportedDomain` + `getResolutionMeta`
inside a try block whose catch returns `null` for any `ResolutionError`
and rethrows anything else; on success fetches the ETH address (outside
the try block) and assembles the result with `type: 'cns'`. -/
def resolve (env : CnsEnv) (domain : String) : Except JsError (Option NamicornResolution) :=
  match getResolutionMeta env domain with
  | .error e =>
    if e.isResolutionError then .ok none else .error e
  | .ok (tokenId, ownerv, ttl, resolverv) =>
    match fetchAddress env resolverv tokenId "ETH" with
    | .error e => .error e
    | .ok addr =>
      .ok (some { addresses := [("ETH", addr)]
                  meta := { owner := ownerv, type := "cns", ttl := ttl } })

/-- cns.ts `address`: `getResolutionMeta` then `fetchAddress`; a falsy
address fails with `UnspecifiedCurrency`. -/
def address (env : CnsEnv) (domain currencyTicker : String) : Except JsError String :=
  match getResolutionMeta env domain with
  | .error e => .error e
  | .ok (tokenId, _, _, resolverv) =>
    match fetchAddress env resolverv tokenId currencyTicker with
    | .error e => .error e
    | .ok addr =>
      match addr with
      | none => .error (.resolution .UnspecifiedCurrency)
      | some s =>
        if s == "" then .error (.resolution .UnspecifiedCurrency)
        else .ok s

/-- cns.ts `record`: namehash, resolver (no null check — the contract is
built at whatever address came back), read the key; a value that is
falsy, `'0x'` or the null address fails with `RecordNotFound`, any other
value is returned. -/
def record (env : CnsEnv) (domain key : String) : Except JsError String :=
  match namehash env domain with
  | .error e => .error e
  | .ok tokenId =>
    match getResolver env tokenId with
    | .error e => .error e
    | .ok resolverv =>
      match getRecord env resolverv key tokenId with
      | .error e => .error e
      | .ok recordv =>
        match recordv with
        | none => .error (.resolution .RecordNotFound)
        | some s =>
          if s == "" || s == "0x" || s == NullAddress then
            .error (.resolution .RecordNotFound)
          else .ok s

end Cns

namespace EthereumNamingService

/-- EthereumNamingService.ts `callMethod` (the base-class copy used by
the Ens backend): identical translation of transport failures to
`NamingServiceDown`. -/
def callMethod (raw : Except JsError (Option String)) : Except JsError (Option String) :=
  match raw with
  | .ok v => .ok v
  | .error e =>
    if rpcDownSignature e.message then .error (.resolution .NamingServiceDown)
    else .error e

/-- `isNullAddress` (imported from types, which is not in src/).
Modelled from the spec: true for an absent value or the null address. -/
def isNullAddress (v : Option String) : Bool := jsFalsyOrNullAddress v

/-- EthereumNamingService.ts `throwOwnershipError`, as the error value it
throws: awaits the owner read (a rejected owner promise propagates
as-is), then `UnregisteredDomain` when the owner is null-ish and
`UnspecifiedResolver` otherwise. -/
def throwOwnershipError (ownerResult : Except JsError (Option String)) : JsError :=
  match ownerResult with
  | .error e => e
  | .ok ownerv =>
    if isNullAddress ownerv then .resolution .UnregisteredDomain
    else .resolution .UnspecifiedResolver

/-- EthereumNamingService.ts `resolver(domain)`, abstracted over the two
on-chain reads its abstract methods perform: when the resolver address is
absent or the null address the method throws `throwOwnershipError`'s
error, else it returns the resolver address. -/
def resolverLookup (ownerResult resolverResult : Except JsError (Option String)) :
    Except JsError (Option String) :=
  match resolverResult with
  | .error e => .error e
  | .ok resolverAddress =>
    if jsFalsy resolverAddress || isNullAddress resolverAddress then
      .error (throwOwnershipError ownerResult)
    else .ok resolverAddress

end EthereumNamingService

/-- The injected Zilliqa transport, at the granularity of
`getContractField`'s provider queries.  `registryRecordsOf key` models
`provider.send('GetSmartContractSubState', registry, 'records', [key])`
followed by `(response.result || {})['records']`: the outer `Option` is
whether the `records` field is present in the response at all (absent
field ⇒ `undefined`), the inner is whether the key is present in the
returned map; a present entry is the record's `(owner, resolver)`
argument pair.  `resolverRecordsOf addr` likewise models the full
`records` field of a resolver contract as a flat key/value list. -/
structure ZnsChain where
  registryRecordsOf : String → Except JsError (Option (Option (String × String)))
  resolverRecordsOf : String → Except JsError (Option (List (String × String)))

/-- Environment of the Zns backend: its external dependencies (the zns
namehash module and the `@zilliqa-js/crypto` address conversions, none of
which are in src/) plus the injected transport. -/
structure ZnsEnv where
  namehashFn : String → String
  toChecksumAddress : String → String
  toBech32Address : String → String
  chain : ZnsChain

namespace Zns

/-- Zns `isSupportedDomain`:
`domain.indexOf('.') > 0 && /^.{1,}\.(zil)$/.test(domain)`. -/
def isSupportedDomain (domain : String) : Bool :=
  jsIndexOfDotPositive domain && jsTestDotSuffix "zil" domain

/-- Zns `getContractMapValue(registry, 'records', key)`:
`(await getContractField(...))[key]`.  When the field itself came back
`undefined` the source indexes into `undefined` and a `TypeError` is
thrown; transport errors propagate untouched (there is no catch and no
message translation in this backend). -/
def getContractMapValue (env : ZnsEnv) (key : String) :
    Except JsError (Option (String × String)) :=
  match env.chain.registryRecordsOf key with
  | .error e => .error e
  | .ok none => .error (.generic "TypeError: Cannot read property of undefined")
  | .ok (some entry) => .ok entry

/-- Zns `getResolverRecordsStructure`: `{}` for the null address,
otherwise the resolver contract's `records` field read at the
checksummed address (an absent field becomes `{}` through
`_.transform(undefined, ..., {})`).  The de-namespacing `_.set` nesting
is performed by the extraction helpers below. -/
def getResolverRecordsStructure (env : ZnsEnv) (resolverAddress : String) :
    Except JsError (List (String × String)) :=
  if resolverAddress == NullAddress then .ok []
  else
    match env.chain.resolverRecordsOf (env.toChecksumAddress resolverAddress) with
    | .error e => .error e
    | .ok v => .ok (v.getD [])

/-- The currency tickers present under the `crypto.` namespace after the
`_.set` de-namespacing of the flat record keys. -/
def cryptoTickers (records : List (String × String)) : List String :=
  (records.filterMap (fun kv =>
    match kv.1.splitOn "." with
    | "crypto" :: t :: _ => some t
    | _ => none)).eraseDups

/-- `_.mapValues(resolution.crypto, 'address')`: each ticker of the
`crypto` namespace mapped to its `crypto.<t>.address` value (`undefined`
when that leaf is missing).  The model assumes the on-chain keys do not
conflict as nested paths, which holds for every record set a claim
touches. -/
def addressesOf (records : List (String × String)) : List (String × Option String) :=
  (cryptoTickers records).map (fun t => (t, lookupList records ("crypto." ++ t ++ ".address")))

/-- Zns `resolve`: registry record by namehash (absent record ⇒ `null`);
resolver records; owner normalisation (a `0x`-prefixed owner is passed to
`toBech32Address`; the uncompressed-public-key branch of the source is
empty); result assembled with `type: 'zns'` and `owner: owner || null`. -/
def resolve (env : ZnsEnv) (domain : String) : Except JsError (Option NamicornResolution) :=
  match getContractMapValue env (env.namehashFn domain) with
  | .error e => .error e
  | .ok none => .ok none
  | .ok (some (ownerAddress, resolverAddress)) =>
    match getResolverRecordsStructure env resolverAddress with
    | .error e => .error e
    | .ok records =>
      let ownerFinal :=
        if jsStartsWith "0x" ownerAddress then env.toBech32Address ownerAddress
        else ownerAddress
      .ok (some { addresses := addressesOf records
                  meta := { owner := if ownerFinal == "" then none else some ownerFinal
                            type := "zns"
                            ttl := jsParseIntOr0 (lookupList records "ttl") } })

end Zns

/-- Modelled from the spec: the injected transport of the ENS backend
(ens.ts is not in src/), with the reads §4.2 prescribes: owner and
resolver from the registry by node hash, then ttl and the ETH address
record from the resolver contract. -/
structure EnsChain where
  ownerOf : String → Except JsError (Option String)
  resolverOf : String → Except JsError (Option String)
  ttlOf : String → String → Except JsError (Option String)
  addressRecordOf : String → String → Except JsError (Option String)

/-- Environment of the spec-modelled Ens backend. -/
structure EnsEnv where
  hash2 : String → String → String
  chain : EnsChain

namespace Ens

/-- Modelled from the spec: the ENS backend's `isSupportedDomain`
(ens.ts is not in src/): syntax-only suffix test in the shape shared by
the in-src backends; the spec names `.eth` for this backend ("`.eth`/
others→ENS-style"), and no claim depends on the rest of the suffix set. -/
def isSupportedDomain (domain : String) : Bool :=
  jsIndexOfDotPositive domain && jsTestDotSuffix "eth" domain

/-- The node hash of a domain, abstract in the keccak combiner. -/
def nodeOf (env : EnsEnv) (domain : String) : String :=
  namehashCore env.hash2 domain

/-- Modelled from the spec: the ENS backend's `resolve` (ens.ts is not in
src/), following §4.2/§4.3: every read goes through the in-src
`EthereumNamingService.callMethod`; an absent/null owner is reported as
`null` (the "absent from registry" report the dispatcher normalises); an
absent/null resolver on an owned domain fails `UnspecifiedResolver`;
otherwise ttl and the ETH address are read and the result carries
`type: 'ens'`. -/
def resolve (env : EnsEnv) (domain : String) : Except JsError (Option NamicornResolution) :=
  let node := nodeOf env domain
  match EthereumNamingService.callMethod (env.chain.ownerOf node) with
  | .error e => .error e
  | .ok ownerv =>
    if jsFalsyOrNullAddress ownerv then .ok none
    else
      match EthereumNamingService.callMethod (env.chain.resolverOf node) with
      | .error e => .error e
      | .ok resolverv =>
        if jsFalsyOrNullAddress resolverv then .error (.resolution .UnspecifiedResolver)
        else
          match EthereumNamingService.callMethod (env.chain.ttlOf (resolverv.getD "") node) with
          | .error e => .error e
          | .ok ttlv =>
            match EthereumNamingService.callMethod (env.chain.addressRecordOf (resolverv.getD "") node) with
            | .error e => .error e
            | .ok addrv =>
              .ok (some { addresses := [("ETH", addrv)]
                          meta := { owner := ownerv, type := "ens", ttl := jsParseIntOr0 ttlv } })

end Ens

/-- The dispatcher's environment: the two backends namicorn.ts registers
in its default configuration (`this.ens` and `this.zns`; the Cns class
of cns.ts is not wired into the dispatcher in this source tree). -/
structure NamicornEnv where
  ens : EnsEnv
  zns : ZnsEnv

namespace Namicorn

/-- namicorn.ts `UNCLAIMED_DOMAIN_RESPONSE`. -/
def UNCLAIMED_DOMAIN_RESPONSE : NamicornResolution :=
  { addresses := [], meta := { owner := none, type := "", ttl := 0 } }

/-- namicorn.ts `isSupportedDomain`:
`(this.zns && this.zns.isSupportedDomain(d)) || (this.ens && this.ens.isSupportedDomain(d))`
in the default configuration where both backends exist. -/
def isSupportedDomain (domain : String) : Bool :=
  Zns.isSupportedDomain domain || Ens.isSupportedDomain domain

/-- namicorn.ts `resolveUsingBlockchain`: `getNamingMethod` picks the
first of `[this.ens, this.zns]` whose `isSupportedDomain` holds (none ⇒
`UnsupportedDomain`); the chosen backend's result is returned, with a
falsy result replaced by `UNCLAIMED_DOMAIN_RESPONSE`. -/
def resolveUsingBlockchain (env : NamicornEnv) (domain : String) :
    Except JsError NamicornResolution :=
  if Ens.isSupportedDomain domain then
    match Ens.resolve env.ens domain with
    | .error e => .error e
    | .ok r => .ok (r.getD UNCLAIMED_DOMAIN_RESPONSE)
  else if Zns.isSupportedDomain domain then
    match Zns.resolve env.zns domain with
    | .error e => .error e
    | .ok r => .ok (r.getD UNCLAIMED_DOMAIN_RESPONSE)
  else .error (.resolution .UnsupportedDomain)

/-- namicorn.ts `resolve` in the blockchain configuration (the plain
HTTP API fallback is excluded by the spec). -/
def resolve (env : NamicornEnv) (domain : String) : Except JsError NamicornResolution :=
  resolveUsingBlockchain env domain

/-- The JS object read `data.addresses[key]`. -/
def addressesRead (addrs : List (String × Option String)) (key : String) : Option String :=
  match addrs.find? (fun kv => kv.1 == key) with
  | none => none
  | some kv => kv.2

/-- namicorn.ts `addressOrThrow`: `resolve` inside a try block whose
catch returns `null` for a `ResolutionError` and rethrows anything else;
then a falsy `meta.owner` throws `UnregisteredDomain`, a falsy
`addresses[ticker.toUpperCase()]` throws `UnregisteredCurrency`, and the
(truthy) address is returned. -/
def addressOrThrow (env : NamicornEnv) (domain currencyTicker : String) :
    Except JsError (Option String) :=
  match resolve env domain with
  | .error e =>
    if e.isResolutionError then .ok none else .error e
  | .ok data =>
    if jsFalsy data.meta.owner then .error (.resolution .UnregisteredDomain)
    else if jsFalsy (addressesRead data.addresses (jsToUpper currencyTicker)) then
      .error (.resolution .UnregisteredCurrency)
    else .ok (addressesRead data.addresses (jsToUpper currencyTicker))

/-- namicorn.ts `address`: wraps `addressOrThrow`; a `ResolutionError`
becomes `null`, anything else is rethrown. -/
def address (env : NamicornEnv) (domain currencyTicker : String) :
    Except JsError (Option String) :=
  match addressOrThrow env domain currencyTicker with
  | .error e =>
    if e.isResolutionError then .ok none else .error e
  | .ok v => .ok v

end Namicorn

/-- The dispatcher's backend-result normalisation of
`resolveUsingBlockchain` (`result || UNCLAIMED_DOMAIN_RESPONSE`) applied
to a backend outcome: used to state what the dispatcher would hand a
caller for a given backend report. -/
def dispatchNormalize (r : Except JsError (Option NamicornResolution)) :
    Except JsError NamicornResolution :=
  match r with
  | .error e => .error e
  | .ok v => .ok (v.getD Namicorn.UNCLAIMED_DOMAIN_RESPONSE)

/-- A simple executable stand-in for the abstract keccak combiner, used
only to instantiate witnesses; no theorem depends on its shape. -/
def hash2Demo : String → String → String := fun node label => node ++ "." ++ label

/-- Demo transport whose registry reports an owner but no resolver. -/
def envOwnedNoResolver : CnsEnv :=
  ⟨hash2Demo, ⟨fun _ method _ =>
    if method == "ownerOf" then .ok (some "0x1234") else .ok none⟩⟩

/-- Two suffixes of the same list with equal lengths coincide. -/
theorem suffix_eq_of_isSuffixOf {l s1 s2 : List Char}
    (h1 : s1.isSuffixOf l = true) (h2 : s2.isSuffixOf l = true)
    (hl : s1.length = s2.length) : s1 = s2 := by
  obtain ⟨p1, hp1⟩ := List.isSuffixOf_iff_suffix.mp h1
  obtain ⟨p2, hp2⟩ := List.isSuffixOf_iff_suffix.mp h2
  exact (List.append_inj' (hp1.trans hp2.symm) hl).2

/-- The `.zil` and `.eth` suffix patterns are disjoint: no domain is
supported by both registered backends. -/
theorem zns_ens_not_both (d : String) :
    ¬(Zns.isSupportedDomain d = true ∧ Ens.isSupportedDomain d = true) := by
  rintro ⟨hz, he⟩
  unfold Zns.isSupportedDomain at hz
  unfold Ens.isSupportedDomain at he
  simp only [jsTestDotSuffix, Bool.and_eq_true, decide_eq_true_eq] at hz he
  have hzs : ('.' :: "zil".toList).isSuffixOf d.toList = true := hz.2.1.1
  have hes : ('.' :: "eth".toList).isSuffixOf d.toList = true := he.2.1.1
  have hlen : ('.' :: "zil".toList).length = ('.' :: "eth".toList).length := by decide
  have := suffix_eq_of_isSuffixOf hzs hes hlen
  simp at this

/-- C8: for every domain `d`, the dispatcher's `isSupportedDomain d` is
true iff exactly one registered backend's suffix pattern (the Zns `.zil`
pattern and the Ens `.eth` pattern, each a pure syntactic test of the
shape `indexOf('.') > 0 && /^.{1,}\.(tld)$/`) matches `d`. -/
theorem c8_dispatcher_supported_iff_exactly_one (d : String) :
    Namicorn.isSupportedDomain d = true ↔
      ((if Zns.isSupportedDomain d then 1 else 0) +
        (if Ens.isSupportedDomain d then 1 else 0) = (1 : Nat)) := by
  unfold Namicorn.isSupportedDomain
  cases hz : Zns.isSupportedDomain d with
  | false =>
    cases he : Ens.isSupportedDomain d with
    | false => simp [hz, he]
    | true => simp [hz, he]
  | true =>
    cases he : Ens.isSupportedDomain d with
    | false => simp [hz, he]
    | true => exact absurd ⟨hz, he⟩ (zns_ens_not_both d)

/-- C9: `Cns.namehash` is deterministic (it is a pure function of the
environment and the domain) and case-insensitive: two supported domains
that agree after lowercasing hash to the same token id, for every choice
of the underlying keccak combiner. -/
theorem c9_namehash_case_insensitive (env : CnsEnv) (d1 d2 : String)
    (h1 : Cns.isSupportedDomain d1 = true) (h2 : Cns.isSupportedDomain d2 = true)
    (hlow : jsToLower d1 = jsToLower d2) :
    Cns.namehash env d1 = Cns.namehash env d2 := by
  unfold Cns.namehash Cns.tokenIdOf namehashCore
  rw [h1, h2, hlow]

/-- Witness for C9 at the spec's example pair. -/
theorem c9_namehash_case_insensitive_witness :
    Cns.isSupportedDomain "Brad.crypto" = true ∧
    jsToLower "Brad.crypto" = jsToLower "brad.crypto" ∧
    Cns.namehash envOwnedNoResolver "Brad.crypto" =
      Cns.namehash envOwnedNoResolver "brad.crypto" :=
  ⟨by decide, by decide,
    c9_namehash_case_insensitive envOwnedNoResolver "Brad.crypto" "brad.crypto"
      (by decide) (by decide) (by decide)⟩

/-- C4: whenever the registry's resolver entry for a supported domain
comes back absent, empty or the null address, `Cns.getResolutionMeta`
fails with `UnregisteredDomain` exactly when the owner entry is also
absent/empty/null and with `UnspecifiedResolver` otherwise (so an owned
domain with a null resolver never fails `UnregisteredDomain`); the same
split is performed by `EthereumNamingService.resolver` through
`throwOwnershipError`. -/
theorem c4_null_resolver_error_split :
    (∀ (env : CnsEnv) (d : String) (ow rv : Option String),
      Cns.isSupportedDomain d = true →
      env.chain.call (some Cns.registryAddress) "ownerOf" [Cns.tokenIdOf env d] = .ok ow →
      env.chain.call (some Cns.registryAddress) "resolverOf" [Cns.tokenIdOf env d] = .ok rv →
      jsFalsyOrNullAddress rv = true →
      Cns.getResolutionMeta env d =
        .error (.resolution
          (if jsFalsyOrNullAddress ow then .UnregisteredDomain else .UnspecifiedResolver))) ∧
    (∀ (ownerResult : Except JsError (Option String)) (rv : Option String),
      (jsFalsy rv || EthereumNamingService.isNullAddress rv) = true →
      EthereumNamingService.resolverLookup ownerResult (.ok rv) =
        .error (EthereumNamingService.throwOwnershipError ownerResult)) ∧
    (∀ ow : Option String,
      EthereumNamingService.isNullAddress ow = false →
      EthereumNamingService.throwOwnershipError (.ok ow) = .resolution .UnspecifiedResolver) := by
  refine ⟨?_, ?_, ?_⟩
  · intro env d ow rv hd hoe hre hrv
    simp only [Cns.getResolutionMeta, Cns.namehash, hd, if_true, Cns.owner, Cns.getResolver,
      Cns.callMethod, hoe, hre, hrv]
    cases h : jsFalsyOrNullAddress ow <;> simp [h]
  · intro ownerResult rv hrv
    simp [EthereumNamingService.resolverLookup, hrv]
  · intro ow how
    simp [EthereumNamingService.throwOwnershipError, how]

/-- Witness for C4: an owned domain whose resolver entry is absent fails
with `UnspecifiedResolver`, not `UnregisteredDomain`. -/
theorem c4_null_resolver_error_split_witness :
    Cns.getResolutionMeta envOwnedNoResolver "brad.crypto" =
      .error (.resolution .UnspecifiedResolver) := by
  have h := c4_null_resolver_error_split.1 envOwnedNoResolver "brad.crypto"
    (some "0x1234") none (by decide) (by decide) (by decide) (by decide)
  exact h.trans (by decide)

/-- Demo transport for a resolvable domain: owner and resolver set, the
registry's `get` (the ttl read of `getTtl`) returns `'120'`, and the
resolver contract's `get` returns no value. -/
def envResolvedNoRecord : CnsEnv :=
  ⟨hash2Demo, ⟨fun addr method _ =>
    if method == "ownerOf" then .ok (some "0xowner")
    else if method == "resolverOf" then .ok (some "0xres")
    else if addr == some "0xres" then .ok none
    else .ok (some "120")⟩⟩

/-- Demo transport whose resolver holds the value `'hi'` for every key. -/
def envRecordHi : CnsEnv :=
  ⟨hash2Demo, ⟨fun _ method _ =>
    if method == "resolverOf" then .ok (some "0xres")
    else if method == "get" then .ok (some "hi")
    else .ok none⟩⟩

/-- C7: when the resolver read and the record fetch themselves succeed,
`Cns.record` fails with `RecordNotFound` exactly for a fetched value
that is absent, empty, `'0x'` or the null-address sentinel, and returns
the fetched value otherwise. -/
theorem c7_record_notfound_iff (env : CnsEnv) (d key : String)
    (rv v : Option String)
    (hd : Cns.isSupportedDomain d = true)
    (hre : env.chain.call (some Cns.registryAddress) "resolverOf" [Cns.tokenIdOf env d] = .ok rv)
    (hv : env.chain.call rv "get" [key, Cns.tokenIdOf env d] = .ok v) :
    ((Cns.record env d key = .error (.resolution .RecordNotFound)) ↔
      (v = none ∨ v = some "" ∨ v = some "0x" ∨ v = some NullAddress)) ∧
    (∀ s : String, v = some s → s ≠ "" → s ≠ "0x" → s ≠ NullAddress →
      Cns.record env d key = .ok s) := by
  cases v with
  | none =>
    have hrec : Cns.record env d key = .error (.resolution .RecordNotFound) := by
      simp only [Cns.record, Cns.namehash, hd, if_true, Cns.getResolver, Cns.getRecord,
        Cns.callMethod, hre, hv]
    refine ⟨by simp [hrec], ?_⟩
    intro s hs
    exact absurd hs (by simp)
  | some s =>
    have hrec : Cns.record env d key =
        (if s == "" || s == "0x" || s == NullAddress then
          .error (.resolution .RecordNotFound)
        else .ok s) := by
      simp only [Cns.record, Cns.namehash, hd, if_true, Cns.getResolver, Cns.getRecord,
        Cns.callMethod, hre, hv]
    constructor
    · rw [hrec]
      by_cases h1 : s = ""
      · simp [h1]
      by_cases h2 : s = "0x"
      · simp [h1, h2]
      by_cases h3 : s = NullAddress
      · simp [h1, h2, h3]
      · simp [h1, h2, h3]
    · intro s2 hs h1 h2 h3
      have hss : s = s2 := by
        injection hs
      rw [hrec]
      rw [hss]
      simp [h1, h2, h3]

/-- Witness for C7: a non-sentinel value is returned as-is. -/
theorem c7_record_notfound_iff_witness :
    Cns.record envRecordHi "brad.crypto" "whois.email.value" = .ok "hi" :=
  (c7_record_notfound_iff envRecordHi "brad.crypto" "whois.email.value"
    (some "0xres") (some "hi") (by decide) (by decide) (by decide)).2
    "hi" rfl (by decide) (by decide) (by decide)

/-- C6: on a resolvable domain (one whose `getResolutionMeta` succeeds),
a succeeding record fetch that yields no value for the requested
currency makes `Cns.address` fail with `UnspecifiedCurrency`; and the
ticker enters the record key only uppercased, so the lookup is
case-insensitive. -/
theorem c6_unspecified_currency :
    (∀ (env : CnsEnv) (d t tokenId : String) (ow : Option String) (ttl : Nat) (rv : String)
      (v : Option String),
      Cns.getResolutionMeta env d = .ok (tokenId, ow, ttl, rv) →
      env.chain.call (some rv) "get" ["crypto." ++ jsToUpper t ++ ".address", tokenId] = .ok v →
      jsFalsy v = true →
      Cns.address env d t = .error (.resolution .UnspecifiedCurrency)) ∧
    (∀ (env : CnsEnv) (d t1 t2 : String),
      jsToUpper t1 = jsToUpper t2 →
      Cns.address env d t1 = Cns.address env d t2) := by
  constructor
  · intro env d t tokenId ow ttl rv v hmeta hv hfal
    simp only [Cns.address, hmeta, Cns.fetchAddress, Cns.getRecord, Cns.callMethod, hv]
    cases v with
    | none => simp
    | some s =>
      simp only [jsFalsy] at hfal
      simp [hfal]
  · intro env d t1 t2 h
    simp only [Cns.address, Cns.fetchAddress, h]

/-- Witness for C6 at the spec's example: a resolvable domain with no
BTC record fails with `UnspecifiedCurrency`. -/
theorem c6_unspecified_currency_witness :
    Cns.address envResolvedNoRecord "brad.crypto" "BTC" =
      .error (.resolution .UnspecifiedCurrency) :=
  c6_unspecified_currency.1 envResolvedNoRecord "brad.crypto" "BTC"
    (Cns.tokenIdOf envResolvedNoRecord "brad.crypto") (some "0xowner") 120 "0xres" none
    (by decide) (by decide) (by decide)

/-- A falsy optional string is absent or empty; contrapositive used when
a guard has established truthiness. -/
theorem ne_none_of_jsFalsy_false {v : Option String} (h : jsFalsy v = false) : v ≠ none := by
  cases v with
  | none => simp [jsFalsy] at h
  | some s => simp

/-- Dispatcher environment in which every on-chain read reports absence:
the zns registry responds with its `records` field present but the
queried key missing, and the ens registry knows no owner. -/
def envZilUnclaimed : NamicornEnv :=
  { ens := { hash2 := hash2Demo
             chain := { ownerOf := fun _ => .ok none
                        resolverOf := fun _ => .ok none
                        ttlOf := fun _ _ => .ok none
                        addressRecordOf := fun _ _ => .ok none } }
    zns := { namehashFn := fun d => d
             toChecksumAddress := fun a => a
             toBech32Address := fun a => a
             chain := { registryRecordsOf := fun _ => .ok (some none)
                        resolverRecordsOf := fun _ => .ok none } } }

/-- C2: for every domain the dispatcher supports whose backend registry
has no record (the zns `records` map has no entry for its namehash; the
ens registry reports a null-ish owner), `resolve` returns exactly
`UNCLAIMED_DOMAIN_RESPONSE` — empty addresses, null owner, empty type,
zero ttl — and raises nothing. -/
theorem c2_unregistered_yields_unclaimed (env : NamicornEnv) (d : String)
    (hsup : Namicorn.isSupportedDomain d = true)
    (hens : Ens.isSupportedDomain d = true →
      ∃ ow, env.ens.chain.ownerOf (Ens.nodeOf env.ens d) = .ok ow ∧
        jsFalsyOrNullAddress ow = true)
    (hzns : Zns.isSupportedDomain d = true →
      env.zns.chain.registryRecordsOf (env.zns.namehashFn d) = .ok (some none)) :
    Namicorn.resolve env d = .ok Namicorn.UNCLAIMED_DOMAIN_RESPONSE := by
  unfold Namicorn.resolve Namicorn.resolveUsingBlockchain
  cases he : Ens.isSupportedDomain d with
  | true =>
    obtain ⟨ow, how, hfal⟩ := hens he
    simp [he, Ens.resolve, EthereumNamingService.callMethod, how, hfal]
  | false =>
    have hz : Zns.isSupportedDomain d = true := by
      unfold Namicorn.isSupportedDomain at hsup
      simpa [he] using hsup
    simp [he, hz, Zns.resolve, Zns.getContractMapValue, hzns hz]

/-- Witness for C2 on an unregistered `.zil` domain. -/
theorem c2_unregistered_yields_unclaimed_witness :
    Namicorn.resolve envZilUnclaimed "unregistered.zil" =
      .ok Namicorn.UNCLAIMED_DOMAIN_RESPONSE :=
  c2_unregistered_yields_unclaimed envZilUnclaimed "unregistered.zil" (by decide)
    (fun h => absurd h (by decide)) (fun _ => by decide)

/-- C3: `Namicorn.address` yields `null` exactly when the resolution
pipeline below it failed with a taxonomy error — either `addressOrThrow`
threw a `ResolutionError`, or `addressOrThrow` itself already converted a
`ResolutionError` of `resolve` into `null` — and re-raises non-taxonomy
errors unchanged; concretely, on an unclaimed `.zil` domain `address`
returns `null` while `addressOrThrow` throws `UnregisteredDomain`. -/
theorem c3_address_null_iff_taxonomy :
    (∀ (env : NamicornEnv) (d t : String),
      Namicorn.address env d t = .ok none ↔
        ((∃ c, Namicorn.addressOrThrow env d t = .error (.resolution c)) ∨
          Namicorn.addressOrThrow env d t = .ok none)) ∧
    (∀ (env : NamicornEnv) (d t : String),
      Namicorn.addressOrThrow env d t = .ok none ↔
        ∃ c, Namicorn.resolve env d = .error (.resolution c)) ∧
    (∀ (env : NamicornEnv) (d t m : String),
      Namicorn.address env d t = .error (.generic m) ↔
        Namicorn.addressOrThrow env d t = .error (.generic m)) ∧
    Namicorn.address envZilUnclaimed "unclaimed.zil" "ETH" = .ok none ∧
    Namicorn.addressOrThrow envZilUnclaimed "unclaimed.zil" "ETH" =
      .error (.resolution .UnregisteredDomain) := by
  refine ⟨?_, ?_, ?_, by decide, by decide⟩
  · intro env d t
    cases h : Namicorn.addressOrThrow env d t with
    | ok v => cases v <;> simp [Namicorn.address, h]
    | error e =>
      cases e with
      | resolution c => simp [Namicorn.address, h, JsError.isResolutionError]
      | generic m => simp [Namicorn.address, h, JsError.isResolutionError]
  · intro env d t
    unfold Namicorn.addressOrThrow
    cases hr : Namicorn.resolve env d with
    | error e =>
      cases e with
      | resolution c => simp [JsError.isResolutionError]
      | generic m => simp [JsError.isResolutionError]
    | ok data =>
      by_cases h1 : jsFalsy data.meta.owner = true
      · simp [h1]
      · simp only [Bool.not_eq_true] at h1
        by_cases h2 : jsFalsy (Namicorn.addressesRead data.addresses (jsToUpper t)) = true
        · simp [h1, h2]
        · simp only [Bool.not_eq_true] at h2
          have h3 := ne_none_of_jsFalsy_false h2
          simp [h1, h2, h3]
  · intro env d t m
    cases h : Namicorn.addressOrThrow env d t with
    | ok v => simp [Namicorn.address, h]
    | error e =>
      cases e with
      | resolution c => simp [Namicorn.address, h, JsError.isResolutionError]
      | generic m2 => simp [Namicorn.address, h, JsError.isResolutionError]

/-- C10: when `resolve` itself throws, `addressOrThrow`'s catch block
converts a `ResolutionError` into a `null` return and re-raises every
other error unchanged. -/
theorem c10_addressOrThrow_catches_resolve_taxonomy (env : NamicornEnv) (d t : String) :
    (∀ c, Namicorn.resolve env d = .error (.resolution c) →
      Namicorn.addressOrThrow env d t = .ok none) ∧
    (∀ m, Namicorn.resolve env d = .error (.generic m) →
      Namicorn.addressOrThrow env d t = .error (.generic m)) := by
  constructor
  · intro c h
    simp [Namicorn.addressOrThrow, h, JsError.isResolutionError]
  · intro m h
    simp [Namicorn.addressOrThrow, h, JsError.isResolutionError]

/-- Witness for C10: an unsupported domain makes `resolve` throw
`UnsupportedDomain`, which `addressOrThrow` converts to `null`. -/
theorem c10_addressOrThrow_catches_resolve_taxonomy_witness :
    Namicorn.addressOrThrow envZilUnclaimed "nodomain" "ETH" = .ok none :=
  (c10_addressOrThrow_catches_resolve_taxonomy envZilUnclaimed "nodomain" "ETH").1
    .UnsupportedDomain (by decide)

/-- Counterexample for C1: on a domain that is owned but has no resolver
configured, `Cns.getResolutionMeta` raises `UnspecifiedResolver` during
the backend's resolution, yet `Cns.resolve`'s catch block turns it into
the `null` report, which the dispatcher's `result || UNCLAIMED` step
turns into the unclaimed response — the failure does not propagate. -/
theorem c1_counterexample :
    Cns.getResolutionMeta envOwnedNoResolver "brad.crypto" =
      .error (.resolution .UnspecifiedResolver) ∧
    Cns.resolve envOwnedNoResolver "brad.crypto" = .ok none ∧
    dispatchNormalize (Cns.resolve envOwnedNoResolver "brad.crypto") =
      .ok Namicorn.UNCLAIMED_DOMAIN_RESPONSE :=
  ⟨by decide, by decide, by decide⟩

/-- C1 as amended: the dispatcher itself (`resolveUsingBlockchain`)
converts only a backend's `null` report into the unclaimed response and
propagates every error a registered backend raises unchanged; however
the Cns backend's `resolve` catches every `ResolutionError` raised
during its meta-resolution — `NamingServiceDown` and
`UnspecifiedResolver` included — and reports `null` (hence, after the
dispatcher's normalisation, the unclaimed response); only errors outside
the taxonomy pass through that catch. -/
theorem c1_amended_dispatcher_propagates :
    (∀ (env : NamicornEnv) (d : String) (e : JsError),
      Ens.isSupportedDomain d = true → Ens.resolve env.ens d = .error e →
        Namicorn.resolve env d = .error e) ∧
    (∀ (env : NamicornEnv) (d : String) (e : JsError),
      Zns.isSupportedDomain d = true → Zns.resolve env.zns d = .error e →
        Namicorn.resolve env d = .error e) ∧
    (∀ (env : CnsEnv) (d : String) (c : ResolutionErrorCode),
      Cns.getResolutionMeta env d = .error (.resolution c) →
        Cns.resolve env d = .ok none ∧
        dispatchNormalize (Cns.resolve env d) = .ok Namicorn.UNCLAIMED_DOMAIN_RESPONSE) ∧
    (∀ (env : CnsEnv) (d m : String),
      Cns.getResolutionMeta env d = .error (.generic m) →
        Cns.resolve env d = .error (.generic m)) := by
  refine ⟨?_, ?_, ?_, ?_⟩
  · intro env d e he hr
    simp [Namicorn.resolve, Namicorn.resolveUsingBlockchain, he, hr]
  · intro env d e hz hr
    have he : Ens.isSupportedDomain d = false := by
      cases hE : Ens.isSupportedDomain d with
      | false => rfl
      | true => exact absurd ⟨hz, hE⟩ (zns_ens_not_both d)
    simp [Namicorn.resolve, Namicorn.resolveUsingBlockchain, he, hz, hr]
  · intro env d c h
    have h1 : Cns.resolve env d = .ok none := by
      simp [Cns.resolve, h, JsError.isResolutionError]
    exact ⟨h1, by simp [dispatchNormalize, h1]⟩
  · intro env d m h
    simp [Cns.resolve, h, JsError.isResolutionError]

/-- Witness for the amended C1 at the counterexample's input. -/
theorem c1_amended_dispatcher_propagates_witness :
    Cns.resolve envOwnedNoResolver "brad.crypto" = .ok none ∧
    dispatchNormalize (Cns.resolve envOwnedNoResolver "brad.crypto") =
      .ok Namicorn.UNCLAIMED_DOMAIN_RESPONSE :=
  c1_amended_dispatcher_propagates.2.2.1 envOwnedNoResolver "brad.crypto"
    .UnspecifiedResolver (by decide)

/-- Zns environment whose registry read fails with the malformed-RPC
transport message. -/
def envZnsDown : ZnsEnv :=
  { namehashFn := fun d => d
    toChecksumAddress := fun a => a
    toBech32Address := fun a => a
    chain := { registryRecordsOf := fun _ => .error (.generic "Invalid JSON RPC response")
               resolverRecordsOf := fun _ => .ok none } }

/-- Counterexample for C5: the Zns backend issues its contract calls
without any message translation, so a transport failure matching
"Invalid JSON RPC response" propagates out of `Zns.resolve` as the raw
error and not as `NamingServiceDown`. -/
theorem c5_counterexample :
    Zns.resolve envZnsDown "brad.zil" = .error (.generic "Invalid JSON RPC response") ∧
    Zns.resolve envZnsDown "brad.zil" ≠ .error (.resolution .NamingServiceDown) :=
  ⟨by decide, by decide⟩

/-- C5 as amended: the two Ethereum-style `callMethod` wrappers (cns.ts
and EthereumNamingService.ts) translate exactly the transport failures
matching the malformed-RPC or rate-limit signatures into
`NamingServiceDown`, uniformly, and rethrow all others; the Zns backend
performs no such translation and propagates transport errors unchanged. -/
theorem c5_amended_translation_split :
    (∀ m : String, rpcDownSignature m = true →
      Cns.callMethod (.error (.generic m)) = .error (.resolution .NamingServiceDown) ∧
      EthereumNamingService.callMethod (.error (.generic m)) =
        .error (.resolution .NamingServiceDown)) ∧
    (∀ m : String, rpcDownSignature m = false →
      Cns.callMethod (.error (.generic m)) = .error (.generic m) ∧
      EthereumNamingService.callMethod (.error (.generic m)) = .error (.generic m)) ∧
    (∀ (env : ZnsEnv) (d m : String),
      env.chain.registryRecordsOf (env.namehashFn d) = .error (.generic m) →
      Zns.resolve env d = .error (.generic m)) := by
  refine ⟨?_, ?_, ?_⟩
  · intro m h
    constructor <;> simp [Cns.callMethod, EthereumNamingService.callMethod, JsError.message, h]
  · intro m h
    constructor <;> simp [Cns.callMethod, EthereumNamingService.callMethod, JsError.message, h]
  · intro env d m h
    simp [Zns.resolve, Zns.getContractMapValue, h]

/-- Witness for the amended C5 on the malformed-RPC signature. -/
theorem c5_amended_translation_split_witness :
    Cns.callMethod (.error (.generic "Invalid JSON RPC response")) =
      .error (.resolution .NamingServiceDown) ∧
    EthereumNamingService.callMethod (.error (.generic "Invalid JSON RPC response")) =
      .error (.resolution .NamingServiceDown) :=
  c5_amended_translation_split.1 "Invalid JSON RPC response" (by decide)
